import Mathlib

/-!
Verification of the kube-health evaluation engine.

The definitions below are a shallow embedding of the Go sources of
rhobs/kube-health:
  * `GroupKindMatcher` and the query specifications from `pkg/eval`
    (query/matcher file),
  * the condition analyzers from `pkg/analyze/common.go` and
    `pkg/analyze/analyze.go`,
  * the `Evaluator` from `pkg/eval` (evaluator file).

The `pkg/status` package (the `Result` enum, `Status`, `ConditionStatus`,
`ObjectStatus` types and their small helpers) is not part of the available
sources; where needed, those definitions are modelled from the
specification and from the project's developer documentation, and each such
definition carries a doc comment saying so.

Go maps are modelled as association lists with deterministic (insertion)
order; none of the verified properties depends on map iteration order.
Go's `error` values are modelled as `String`, fallible calls as `Except`.
-/

namespace KubeHealth

/-- GroupKind identifies a Kubernetes resource type (schema.GroupKind). -/
structure GroupKind where
  group : String
  kind : String
deriving DecidableEq, Repr

/-- GroupKindMatcher from the query/matcher file: IncludeAll, IncludedKinds,
ExcludedKinds. IncludedKinds is documented as mutually exclusive with
IncludeAll; ExcludedKinds is only used with IncludeAll. -/
structure GroupKindMatcher where
  IncludeAll : Bool
  IncludedKinds : List GroupKind
  ExcludedKinds : List GroupKind
deriving DecidableEq, Repr

/-- intersect2 from the source: builds a membership set from `a` and keeps
the elements of `b` that are present in it (order and duplicates follow `b`). -/
def intersect2 (a b : List GroupKind) : List GroupKind :=
  b.filter (fun kind => a.contains kind)

/-- intersect from the source: no set yields the empty set, one set yields
that set, two sets yield their intersection. The Go code panics on more
than two inputs; that branch is unreachable from `Merge` (the only caller)
and is modelled as the empty set. -/
def intersect (sets : List (List GroupKind)) : List GroupKind :=
  match sets with
  | [] => []
  | [s] => s
  | [a, b] => intersect2 a b
  | _ => []

/-- Merge from the source: if neither side is IncludeAll the included lists
are concatenated; otherwise the result is IncludeAll. The exclusion inputs
collect the ExcludedKinds of each side that is IncludeAll, and the result
exclusions are their intersection. -/
def GroupKindMatcher.Merge (m other : GroupKindMatcher) : GroupKindMatcher :=
  let ir : Bool × List GroupKind :=
    if !m.IncludeAll && !other.IncludeAll then
      (false, m.IncludedKinds ++ other.IncludedKinds)
    else
      (true, [])
  let excludeInputs :=
    (if m.IncludeAll then [m.ExcludedKinds] else []) ++
    (if other.IncludeAll then [other.ExcludedKinds] else [])
  { IncludeAll := ir.1
    IncludedKinds := ir.2
    ExcludedKinds := intersect excludeInputs }

/-- Equal from the source: equal lengths of the included and excluded lists,
equal IncludeAll flags, and each list's intersection with its counterpart
has the same length as the list itself. -/
def GroupKindMatcher.Equal (m other : GroupKindMatcher) : Bool :=
  if m.IncludedKinds.length != other.IncludedKinds.length
      || m.ExcludedKinds.length != other.ExcludedKinds.length then
    false
  else if m.IncludeAll != other.IncludeAll then
    false
  else if (intersect2 m.IncludedKinds other.IncludedKinds).length
      != m.IncludedKinds.length then
    false
  else if (intersect2 m.ExcludedKinds other.ExcludedKinds).length
      != m.ExcludedKinds.length then
    false
  else
    true

/-- Match from the source: a non-empty IncludedKinds list decides alone;
otherwise a non-IncludeAll matcher matches nothing; otherwise a non-empty
ExcludedKinds list rejects its members; otherwise everything matches. -/
def GroupKindMatcher.Match (m : GroupKindMatcher) (gk : GroupKind) : Bool :=
  if m.IncludedKinds.length > 0 then
    m.IncludedKinds.contains gk
  else if !m.IncludeAll then
    false
  else if m.ExcludedKinds.length > 0 then
    !(m.ExcludedKinds.contains gk)
  else
    true

/-- Example GroupKind used in concrete counterexamples. -/
def gkPod : GroupKind := { group := "", kind := "Pod" }

/-- Example GroupKind used in concrete counterexamples. -/
def gkSecret : GroupKind := { group := "", kind := "Secret" }

/-- Modelled from the spec: the `Result` enum of the missing `pkg/status`
package, a totally ordered enum `Unknown < Ok < Warning < Error`. -/
inductive Result where
  | Unknown
  | Ok
  | Warning
  | Error
deriving DecidableEq, Repr

/-- Modelled from the spec: rank of a `Result` in the order
`Unknown < Ok < Warning < Error`. -/
def Result.toNat : Result → Nat
  | .Unknown => 0
  | .Ok => 1
  | .Warning => 2
  | .Error => 3

/-- Modelled from the spec: the strict order on `Result`
(`Unknown < Ok < Warning < Error`), as a boolean comparison. -/
def Result.lt (a b : Result) : Bool := a.toNat < b.toNat

/-- Modelled from the spec: `Result.String()` renders the human readable
name of the result, used as the aggregated status message. -/
def Result.String : Result → String
  | .Unknown => "Unknown"
  | .Ok => "Ok"
  | .Warning => "Warning"
  | .Error => "Error"

/-- Modelled from the spec: the `Status` struct of the missing `pkg/status`
package, as documented in the project developer documentation:
result, progressing flag, human readable status string, optional error. -/
structure Status where
  Result : Result
  Progressing : Bool
  Status : String
  Err : Option String
deriving DecidableEq, Repr

/-- Kubernetes object identity (from `pkg/status.Object`, modelled from the
spec): type metadata, name, namespace, UID and the untyped payload. The
payload is modelled as a flat association list, which is all the verified
code reads (the synthetic `log` field). -/
structure Object where
  apiVersion : String
  kind : String
  name : String
  ns : String
  uid : String
  data : List (String × String)
deriving DecidableEq, Repr

/-- GroupKind of an object, derived from its apiVersion (`group/version`
or bare `version` for the core group) and kind, mirroring
`GroupVersionKind().GroupKind()`. -/
def Object.groupKind (o : Object) : GroupKind :=
  match o.apiVersion.splitOn "/" with
  | [g, _] => { group := g, kind := o.kind }
  | _ => { group := "", kind := o.kind }

/-- Kubernetes-style condition (metav1.Condition). The status is a string
with conventional values "True", "False" and "Unknown". -/
structure Condition where
  condType : String
  status : String
  reason : String
  message : String
  lastTransitionTime : String
deriving DecidableEq, Repr

/-- metav1.ConditionTrue. -/
def ConditionTrue : String := "True"

/-- metav1.ConditionFalse. -/
def ConditionFalse : String := "False"

/-- metav1.ConditionUnknown. -/
def ConditionUnknown : String := "Unknown"

/-- Modelled from the spec: `ConditionStatus` of the missing `pkg/status`
package pairs a condition with its derived status. Both fields are Go
pointers (nil-able), modelled as options; the zero value is the `NoMatch`
sentinel. -/
structure ConditionStatus where
  Condition : Option Condition
  CondStatus : Option Status
deriving DecidableEq, Repr

/-- ConditionStatusNoMatch from `pkg/analyze/analyze.go`: the zero
`ConditionStatus` value, returned by a condition analyzer that declines. -/
def ConditionStatusNoMatch : ConditionStatus :=
  { Condition := none, CondStatus := none }

/-- Modelled from the spec: `ConditionStatus.Status()` returns the status
the `CondStatus` pointer points to. On analyzed conditions the pointer is
always set; the nil case (which would panic in Go) is modelled as the zero
`Status`. -/
def ConditionStatus.statusOf (cs : ConditionStatus) : Status :=
  cs.CondStatus.getD { Result := .Unknown, Progressing := false, Status := "", Err := none }

/-- ObjectStatus of the missing `pkg/status` package (modelled from the
spec and the developer documentation): the object, its aggregated status,
the analyzed sub-objects and the analyzed conditions. -/
inductive ObjectStatus where
  | mk (Object : Object) (ObjStatus : Status)
       (SubStatuses : List ObjectStatus) (Conditions : List ConditionStatus)

/-- Object carried by an `ObjectStatus`. -/
def ObjectStatus.object : ObjectStatus → Object
  | .mk o _ _ _ => o

/-- Modelled from the spec: `ObjectStatus.Status()` returns the `ObjStatus`
field. -/
def ObjectStatus.status : ObjectStatus → Status
  | .mk _ s _ _ => s

/-- Sub-statuses carried by an `ObjectStatus`. -/
def ObjectStatus.subStatuses : ObjectStatus → List ObjectStatus
  | .mk _ _ subs _ => subs

/-- Conditions carried by an `ObjectStatus`. -/
def ObjectStatus.conditions : ObjectStatus → List ConditionStatus
  | .mk _ _ _ conds => conds

/-- Modelled from the spec: `UnknownStatusWithError(obj, err)` wraps a
loader or access error into an Unknown status for the object, with no
sub-statuses and no conditions. -/
def UnknownStatusWithError (obj : Object) (err : String) : ObjectStatus :=
  .mk obj
    { Result := .Unknown, Progressing := false,
      Status := Result.Unknown.String, Err := some err }
    [] []

/-- Modelled from the spec: `OkStatus(obj, conditions)` reports the object
as Ok with the given conditions. -/
def OkStatus (obj : Object) (conditions : List ConditionStatus) : ObjectStatus :=
  .mk obj
    { Result := .Ok, Progressing := false, Status := Result.Ok.String, Err := none }
    [] conditions

/-- Matcher interface from `pkg/analyze/common.go`: `Match(string) bool`.
String and regexp matchers are particular instances; the claims quantify
over arbitrary matchers, so the interface is embedded as a function. -/
def CondMatcher : Type := String → Bool

/-- GenericConditionAnalyzer from `pkg/analyze/common.go`: five matcher
sets controlling polarity, progressing and severity. -/
structure GenericConditionAnalyzer where
  Conditions : List CondMatcher
  ReversedPolarityConditions : List CondMatcher
  WarningConditions : List CondMatcher
  ProgressingConditions : List CondMatcher
  UnknownConditions : List CondMatcher

/-- match from `pkg/analyze/common.go`, returning
(match, reverse, progressing, result). Each Go loop breaks at the first
matcher of the set that matches and assigns set-specific constants, which
is equivalent to testing `List.any` for the set; the sets are checked in
the source order Conditions, ReversedPolarityConditions,
ProgressingConditions, WarningConditions, UnknownConditions, each matching
set overwriting the result of the previous ones. (`match` is a reserved
word in Lean, hence `matchCond`.) -/
def GenericConditionAnalyzer.matchCond (a : GenericConditionAnalyzer)
    (condType : String) : Bool × Bool × Bool × Result :=
  let s1 : Bool × Result :=
    if a.Conditions.any (fun t => t condType) then (true, .Error)
    else (false, .Unknown)
  let s2 : Bool × Bool × Result :=
    if a.ReversedPolarityConditions.any (fun t => t condType) then (true, true, .Error)
    else (s1.1, false, s1.2)
  let s3 : Bool × Bool × Result :=
    if a.ProgressingConditions.any (fun t => t condType) then (true, true, .Unknown)
    else (s2.1, false, s2.2.2)
  let s4 : Bool × Result :=
    if a.WarningConditions.any (fun t => t condType) then (true, .Warning)
    else (s3.1, s3.2.2)
  let s5 : Bool × Result :=
    if a.UnknownConditions.any (fun t => t condType) then (true, .Unknown)
    else (s4.1, s4.2)
  (s5.1, s2.2.1, s3.2.1, s5.2)

/-- Analyze from `pkg/analyze/common.go` (GenericConditionAnalyzer): no
match yields the NoMatch sentinel; a bad state (False under normal
polarity, True under reversed polarity) yields the target result and
progressing flag; an Unknown condition status yields Unknown; anything
else yields Ok. -/
def GenericConditionAnalyzer.Analyze (a : GenericConditionAnalyzer)
    (cond : Condition) : ConditionStatus :=
  let m := a.matchCond cond.condType
  let reverse := m.2.1
  let targetProgressing := m.2.2.1
  let targetRes := m.2.2.2
  if !m.1 then
    ConditionStatusNoMatch
  else
    let rp : Result × Bool :=
      if (!reverse && cond.status == ConditionFalse)
          || (reverse && cond.status == ConditionTrue) then
        (targetRes, targetProgressing)
      else if cond.status == ConditionUnknown then
        (.Unknown, false)
      else
        (.Ok, false)
    { Condition := some cond
      CondStatus := some { Result := rp.1, Progressing := rp.2, Status := "", Err := none } }

/-- ConditionStatusUnknown from `pkg/analyze/common.go`. -/
def ConditionStatusUnknown (cond : Condition) : ConditionStatus :=
  { Condition := some cond
    CondStatus := some { Result := .Unknown, Progressing := false, Status := "", Err := none } }

/-- Condition analyzer interface from `pkg/analyze/analyze.go`:
`Analyze(*metav1.Condition) ConditionStatus`. -/
def CondAnalyzer : Type := Condition → ConditionStatus

/-- Inner loop of AnalyzeConditions from `pkg/analyze/analyze.go`: run the
analyzers in order, stopping at the first verdict different from the
NoMatch sentinel; if every analyzer declines the final value is the
sentinel itself (also when the list is empty). -/
def runCondAnalyzers : List CondAnalyzer → Condition → ConditionStatus
  | [], _ => ConditionStatusNoMatch
  | a :: rest, cond =>
    let cs := a cond
    if cs ≠ ConditionStatusNoMatch then cs else runCondAnalyzers rest cond

/-- AnalyzeConditions from `pkg/analyze/analyze.go`: one output per input
condition, in order; the verdict of the first analyzer that does not
decline is kept when it carries a condition pointer, otherwise the
condition is reported as Unknown. -/
def AnalyzeConditions (conditions : List Condition)
    (analyzers : List CondAnalyzer) : List ConditionStatus :=
  conditions.map (fun cond =>
    let cs := runCondAnalyzers analyzers cond
    if cs.Condition = none then ConditionStatusUnknown cond else cs)

/-- Single aggregation step of AggregateResult from
`pkg/analyze/analyze.go`: raise the running result if the contributor's
result is greater, and latch the progressing flag. -/
def aggStep (rp : Result × Bool) (st : Status) : Result × Bool :=
  (if rp.1.lt st.Result then st.Result else rp.1,
   if st.Progressing then true else rp.2)

/-- AggregateResult from `pkg/analyze/analyze.go`: fold the conditions and
then the sub-statuses starting from (Unknown, false), and emit the object
status with the result's string rendering as message. -/
def AggregateResult (obj : Object) (subStatuses : List ObjectStatus)
    (conditions : List ConditionStatus) : ObjectStatus :=
  let start : Result × Bool := (.Unknown, false)
  let afterConds := conditions.foldl (fun rp cond => aggStep rp cond.statusOf) start
  let afterSubs := subStatuses.foldl (fun rp sub => aggStep rp sub.status) afterConds
  .mk obj
    { Result := afterSubs.1, Progressing := afterSubs.2,
      Status := afterSubs.1.String, Err := none }
    subStatuses conditions

/-- Lookup in an association list modelling a Go map. -/
def lookupKV {α : Type} (m : List (String × α)) (k : String) : Option α :=
  match m with
  | [] => none
  | (k2, v) :: rest => if k2 = k then some v else lookupKV rest k

/-- Assignment `m[k] = v` on an association list modelling a Go map:
replace the existing entry or append a new one. -/
def setKV {α : Type} (m : List (String × α)) (k : String) (v : α) : List (String × α) :=
  match m with
  | [] => [(k, v)]
  | (k2, v2) :: rest => if k2 = k then (k2, v) :: rest else (k2, v2) :: setKV rest k v

/-- NamespaceAll token from the query file: matches every namespace and
cluster-scoped resources. -/
def NamespaceAll : String := "*all*"

/-- NamespaceNone token from the query file: cluster-scoped only. -/
def NamespaceNone : String := ""

/-- Analyzer interface from the evaluator file: `Supports` picks the
objects the analyzer handles and `Analyze` produces their status.
Analyzers are modelled as pure verdict functions; the re-entrant queries
an analyzer may issue are outside the claims verified here. -/
structure Analyzer where
  supports : Object → Bool
  analyze : Object → ObjectStatus

/-- Loader interface from the evaluator file, restricted to the methods
the verified code paths call: single get, bulk list and pod-log fetch.
Errors are modelled as strings. -/
structure Loader where
  get : Object → Except String Object
  load : String → GroupKindMatcher → List GroupKind → Except String (List Object)
  loadPodLogs : Object → String → Int → Except String String

/-- nsCache from the evaluator file: per-namespace objects bucketed by
GroupKind, the merged matcher the namespace was loaded under, and the
refill flag. The Go map is an association list here. -/
structure NsCache where
  objects : List (GroupKind × List Object)
  matcher : GroupKindMatcher
  needsRefill : Bool

/-- newNsCache from the evaluator file: empty buckets, zero-value matcher,
no refill pending. -/
def newNsCache : NsCache :=
  { objects := [], matcher := { IncludeAll := false, IncludedKinds := [], ExcludedKinds := [] },
    needsRefill := false }

/-- Association-list lookup for the per-GroupKind buckets of an nsCache. -/
def gkLookup (m : List (GroupKind × List Object)) (gk : GroupKind) : Option (List Object) :=
  match m with
  | [] => none
  | (k2, v) :: rest => if k2 = gk then some v else gkLookup rest gk

/-- Association-list assignment for the per-GroupKind buckets of an nsCache. -/
def gkSet (m : List (GroupKind × List Object)) (gk : GroupKind) (v : List Object) :
    List (GroupKind × List Object) :=
  match m with
  | [] => [(gk, v)]
  | (k2, v2) :: rest => if k2 = gk then (k2, v) :: rest else (k2, v2) :: gkSet rest gk v

/-- append from the evaluator file (nsCache): add the object to its
GroupKind bucket. -/
def NsCache.append (n : NsCache) (obj : Object) : NsCache :=
  let gk := obj.groupKind
  { n with objects := gkSet n.objects gk ((gkLookup n.objects gk).getD [] ++ [obj]) }

/-- updateMatcher from the evaluator file (nsCache): merge the incoming
matcher into the stored one; when the merge changes it (per Equal), store
it, set needsRefill and report the change. -/
def NsCache.updateMatcher (n : NsCache) (gk : GroupKindMatcher) : Bool × NsCache :=
  let matcher := n.matcher.Merge gk
  if !(matcher.Equal n.matcher) then
    (true, { n with matcher := matcher, needsRefill := true })
  else
    (false, n)

/-- Evaluator state from the evaluator file: the analyzers in registration
order, the per-UID analyzer memo, the UID-to-object cache, the
per-namespace cache, the ownership index, the ownership refresh list and
the loader. Go maps are association lists. -/
structure Evaluator where
  analyzers : List Analyzer
  analyzersCache : List (String × Analyzer)
  cache : List (String × Object)
  nsCache : List (String × NsCache)
  ownership : List (String × List String)
  ownershipRefreshNs : List String
  loader : Loader

/-- getNsCache from the evaluator file: return the namespace cache entry,
creating an empty one first when the namespace is not present yet. -/
def Evaluator.getNsCacheE (e : Evaluator) (ns : String) : NsCache × Evaluator :=
  match lookupKV e.nsCache ns with
  | some n => (n, e)
  | none => (newNsCache, { e with nsCache := setKV e.nsCache ns newNsCache })

/-- Reset from the evaluator file: Go `clear` empties the cache, ownership
and nsCache maps, while `clear` on the ownershipRefreshNs slice zeroes its
elements in place and keeps its length. The analyzers and the analyzersCache
memo are not touched. -/
def Evaluator.Reset (e : Evaluator) : Evaluator :=
  { e with cache := [], ownership := [], nsCache := [],
           ownershipRefreshNs := e.ownershipRefreshNs.map (fun _ => "") }

/-- findAnalyzer from the evaluator file: the first analyzer in
registration order whose Supports accepts the object; a hit is memoized in
analyzersCache. A miss returns Go nil, modelled as `none`, and leaves the
memo untouched. -/
def Evaluator.findAnalyzer (e : Evaluator) (obj : Object) : Option Analyzer × Evaluator :=
  match e.analyzers.find? (fun a => a.supports obj) with
  | some a => (some a, { e with analyzersCache := setKV e.analyzersCache obj.uid a })
  | none => (none, e)

/-- updateCache from the evaluator file: a UID already present is a no-op
reporting false; otherwise the object is stored under its UID and appended
to its home namespace bucket. -/
def Evaluator.updateCacheB (e : Evaluator) (obj : Object) : Bool × Evaluator :=
  match lookupKV e.cache obj.uid with
  | some _ => (false, e)
  | none =>
    let e1 := { e with cache := setKV e.cache obj.uid obj }
    let (n, e2) := e1.getNsCacheE obj.ns
    (true, { e2 with nsCache := setKV e2.nsCache obj.ns (n.append obj) })

/-- Eval from the evaluator file: find the analyzer first (memoizing it),
then use the cached object when the UID is known; otherwise fetch a fresh
version with Loader.Get, returning UnknownStatusWithError on failure, and
insert the original argument (not the fetched version) into the cache.
The analyzer then runs on the cached or fetched object; a missing analyzer
(Go nil, a panic at the Analyze call) is modelled as `none`. -/
def Evaluator.Eval (e0 : Evaluator) (obj : Object) : Option ObjectStatus × Evaluator :=
  let fa := e0.findAnalyzer obj
  let analyzerOpt := fa.1
  let e1 := fa.2
  match lookupKV e1.cache obj.uid with
  | some updatedObj => (analyzerOpt.map (fun a => a.analyze updatedObj), e1)
  | none =>
    match e1.loader.get obj with
    | .error err => (some (UnknownStatusWithError obj err), e1)
    | .ok updatedObj =>
      let e2 := (e1.updateCacheB obj).2
      (analyzerOpt.map (fun a => a.analyze updatedObj), e2)

/-- loadNamespace from the evaluator file: list the namespace under its
merged matcher (passing the GroupKinds already loaded as an exclusion
hint); on success clear the refill flag, insert the returned objects
(skipping UIDs already cached), duplicate NamespaceAll loads into the
NamespaceAll bucket, and record each newly touched namespace for the
ownership refresh. The Go `touchedNs` set is modelled as a deduplicated
list in first-touch order. -/
def Evaluator.loadNamespace (e0 : Evaluator) (ns : String) : Except String Unit × Evaluator :=
  let (nsc, e) := e0.getNsCacheE ns
  let gksLoaded := nsc.objects.map Prod.fst
  match e.loader.load ns nsc.matcher gksLoaded with
  | .error err => (.error err, e)
  | .ok objs =>
    let e := { e with nsCache := setKV e.nsCache ns { nsc with needsRefill := false } }
    let step := fun (acc : Evaluator × List String) (obj : Object) =>
      let (e, touched) := acc
      let (changed, e) := e.updateCacheB obj
      if changed then
        let e :=
          if ns = NamespaceAll then
            let (n, e2) := e.getNsCacheE ns
            { e2 with nsCache := setKV e2.nsCache ns (n.append obj) }
          else e
        (e, if touched.contains obj.ns then touched else touched ++ [obj.ns])
      else (e, touched)
    let (e, touchedNs) := objs.foldl step (e, [])
    let refresh := touchedNs.foldl
      (fun (acc : List String) ns2 => if acc.contains ns2 then acc else acc ++ [ns2])
      e.ownershipRefreshNs
    (.ok (), { e with ownershipRefreshNs := refresh })

/-- Filter for a single concrete namespace, from the evaluator file: walk
the namespace's GroupKind buckets and keep those the matcher accepts
(getNsCache creates the namespace entry when absent). -/
def Evaluator.FilterNs (e : Evaluator) (ns : String) (matcher : GroupKindMatcher) :
    List Object × Evaluator :=
  let (nsc, e1) := e.getNsCacheE ns
  (nsc.objects.foldl (fun acc p => if matcher.Match p.1 then acc ++ p.2 else acc) [], e1)

/-- Filter from the evaluator file: NamespaceAll recurses over every
cached namespace except NamespaceAll itself; a concrete namespace filters
its own buckets. -/
def Evaluator.Filter (e : Evaluator) (ns : String) (matcher : GroupKindMatcher) :
    List Object × Evaluator :=
  if ns = NamespaceAll then
    (e.nsCache.map Prod.fst).foldl
      (fun (acc : List Object × Evaluator) ns2 =>
        if ns2 ≠ NamespaceAll then
          let (objs, e2) := acc.2.FilterNs ns2 matcher
          (acc.1 ++ objs, e2)
        else acc)
      ([], e)
  else
    e.FilterNs ns matcher

/-- QuerySpec interface from the query file: the preload namespace, the
preload matcher and the evaluation hook that filters the preloaded cache.
The hook may touch evaluator state (ownership refresh), so it threads the
evaluator. -/
structure QuerySpec where
  ns : String
  matcher : GroupKindMatcher
  eval : Evaluator → List Object × Evaluator

/-- KindQuerySpec from the query file: matcher and namespace as given, the
evaluation hook returns the cache slice for the matcher. -/
def KindQuerySpec (gk : GroupKindMatcher) (ns : String) : QuerySpec :=
  { ns := ns, matcher := gk, eval := fun e => e.Filter ns gk }

/-- Load from the evaluator file: merge the query's matcher into the
namespace cache; when that changes the matcher, run loadNamespace —
discarding its error — and finally run the query's own filter. The
returned error is always nil in the source. -/
def Evaluator.LoadQ (e0 : Evaluator) (q : QuerySpec) :
    Except String (List Object) × Evaluator :=
  let (nsc, e) := e0.getNsCacheE q.ns
  let (changed, nsc2) := nsc.updateMatcher q.matcher
  let e := if changed then { e with nsCache := setKV e.nsCache q.ns nsc2 } else e
  let e := if changed then (e.loadNamespace q.ns).2 else e
  let (objects, e) := q.eval e
  (.ok objects, e)

/-- analyzeObjects from the evaluator file: analyze each object with the
provided analyzer, or with findAnalyzer when none is given. A nil analyzer
result (a Go panic at the Analyze call) is modelled as a `none` entry. -/
def Evaluator.analyzeObjects (e0 : Evaluator) (objects : List Object)
    (analyzer : Option Analyzer) : List (Option ObjectStatus) × Evaluator :=
  objects.foldl
    (fun (acc : List (Option ObjectStatus) × Evaluator) obj =>
      let (ret, e) := acc
      match analyzer with
      | some a => (ret ++ [some (a.analyze obj)], e)
      | none =>
        let (aOpt, e2) := e.findAnalyzer obj
        (ret ++ [aOpt.map (fun a => a.analyze obj)], e2))
    ([], e0)

/-- EvalQuery from the evaluator file: Load the query's objects, propagate
a Load error, otherwise analyze every returned object. -/
def Evaluator.EvalQuery (e0 : Evaluator) (q : QuerySpec) (analyzer : Option Analyzer) :
    Except String (List (Option ObjectStatus)) × Evaluator :=
  match e0.LoadQ q with
  | (.error err, e) => (.error err, e)
  | (.ok objects, e) =>
    let (stats, e2) := e.analyzeObjects objects analyzer
    (.ok stats, e2)

/-- PodLogQuerySpec from the query file: a pod object and a container
name. Its matcher is empty (no preload). -/
structure PodLogQuerySpec where
  object : Object
  container : String

/-- Eval of PodLogQuerySpec from the query file: fetch the last 5 log
lines through the loader; on success store them under the `log` data key,
on failure only log the error (no data key, no error surfaced); either way
return exactly one synthetic object of kind Log, apiVersion
kube-health.io/v1, named after the container. -/
def PodLogQuerySpec.Eval (qs : PodLogQuerySpec) (e : Evaluator) : List Object :=
  let data : List (String × String) :=
    match e.loader.loadPodLogs qs.object qs.container 5 with
    | .ok logs => [("log", logs)]
    | .error _ => []
  [{ apiVersion := "kube-health.io/v1", kind := "Log", name := qs.container,
     ns := "", uid := "", data := data }]

/-- Binary maximum on `Result` under the order `Unknown < Ok < Warning < Error`. -/
def maxRes (a b : Result) : Result := if a.lt b then b else a

/-- Maximum of a list of results, starting from Unknown, as the
aggregation claim states it. -/
def maxResultOver (l : List Result) : Result := l.foldl maxRes .Unknown

/-- Disjunction of a list of progressing flags, as the aggregation claim
states it. -/
def anyProgressing (l : List Bool) : Bool := l.any id

/-- Claim-side reformulation of the match computation, following the
specification's words: a condition type matches when any of the five sets
matches it; reverse comes from the reversed-polarity set, progressing from
the progressing set, and the target result is the assignment of the last
matching set in the fixed order Conditions (Error),
ReversedPolarityConditions (Error), ProgressingConditions (Unknown),
WarningConditions (Warning), UnknownConditions (Unknown). -/
def GenericConditionAnalyzer.matchFromSpec (a : GenericConditionAnalyzer)
    (condType : String) : Bool × Bool × Bool × Result :=
  let c1 := a.Conditions.any (fun t => t condType)
  let c2 := a.ReversedPolarityConditions.any (fun t => t condType)
  let c3 := a.ProgressingConditions.any (fun t => t condType)
  let c4 := a.WarningConditions.any (fun t => t condType)
  let c5 := a.UnknownConditions.any (fun t => t condType)
  let result :=
    if c5 then Result.Unknown
    else if c4 then Result.Warning
    else if c3 then Result.Unknown
    else if c2 then Result.Error
    else if c1 then Result.Error
    else Result.Unknown
  (c1 || c2 || c3 || c4 || c5, c2, c3, result)

/-- Claim-side reformulation of GenericConditionAnalyzer.Analyze,
following the claim's decision list: NoMatch when no set matched; the
target result and progressing flag in the bad state (True under reversed
polarity, False under normal polarity); Unknown for an Unknown condition
status; Ok otherwise. -/
def GenericConditionAnalyzer.AnalyzeFromSpec (a : GenericConditionAnalyzer)
    (cond : Condition) : ConditionStatus :=
  let m := a.matchFromSpec cond.condType
  if !m.1 then
    ConditionStatusNoMatch
  else if (!m.2.1 && cond.status == ConditionFalse)
      || (m.2.1 && cond.status == ConditionTrue) then
    { Condition := some cond
      CondStatus := some { Result := m.2.2.2, Progressing := m.2.2.1, Status := "", Err := none } }
  else if cond.status == ConditionUnknown then
    { Condition := some cond
      CondStatus := some { Result := .Unknown, Progressing := false, Status := "", Err := none } }
  else
    { Condition := some cond
      CondStatus := some { Result := .Ok, Progressing := false, Status := "", Err := none } }

/-- Analyzer fixture that supports every object and reports it Ok. -/
def okAnalyzer : Analyzer :=
  { supports := fun _ => true, analyze := fun o => OkStatus o [] }

/-- Object fixture: the (possibly stale) version handed to Eval. -/
def objStale : Object :=
  { apiVersion := "v1", kind := "Pod", name := "stale", ns := "default",
    uid := "u1", data := [] }

/-- Object fixture: the fresh version of the same object (same UID,
different content) that the loader returns. -/
def objFresh : Object :=
  { apiVersion := "v1", kind := "Pod", name := "fresh", ns := "default",
    uid := "u1", data := [] }

/-- Loader fixture whose Get returns the fresh object version and whose
other calls succeed trivially. -/
def freshLoader : Loader :=
  { get := fun _ => .ok objFresh,
    load := fun _ _ _ => .ok [],
    loadPodLogs := fun _ _ _ => .ok "L1" }

/-- Loader fixture whose every call fails. -/
def failLoader : Loader :=
  { get := fun _ => .error "boom",
    load := fun _ _ _ => .error "boom",
    loadPodLogs := fun _ _ _ => .error "boom" }

/-- Evaluator fixture with empty state over the given loader. -/
def emptyEvaluator (l : Loader) : Evaluator :=
  { analyzers := [okAnalyzer], analyzersCache := [], cache := [], nsCache := [],
    ownership := [], ownershipRefreshNs := [], loader := l }

/-- Evaluator fixture with every piece of cross-cycle state populated,
used to exercise Reset. -/
def populatedEvaluator : Evaluator :=
  { analyzers := [okAnalyzer],
    analyzersCache := [("u1", okAnalyzer)],
    cache := [("u1", objStale)],
    nsCache := [("default", newNsCache)],
    ownership := [("u0", ["u1"])],
    ownershipRefreshNs := ["default"],
    loader := freshLoader }

/-- Evaluator fixture whose UID cache already holds the stale object. -/
def cachedEvaluator : Evaluator :=
  { analyzers := [okAnalyzer], analyzersCache := [], cache := [("u1", objStale)],
    nsCache := [], ownership := [], ownershipRefreshNs := [], loader := freshLoader }

/-- Kind query fixture over the Pod GroupKind in namespace ns1. -/
def podKindQuery : QuerySpec :=
  KindQuerySpec { IncludeAll := false, IncludedKinds := [gkPod], ExcludedKinds := [] } "ns1"

/-- Condition fixture used in counterexamples. -/
def condReady : Condition :=
  { condType := "Ready", status := "True", reason := "", message := "",
    lastTransitionTime := "" }

/-- Condition-analyzer fixture returning a verdict that differs from the
NoMatch sentinel but carries no condition pointer. -/
def headlessVerdictAnalyzer : CondAnalyzer :=
  fun _ =>
    { Condition := none
      CondStatus := some { Result := .Error, Progressing := false, Status := "", Err := none } }

/-- PodLog query fixture. -/
def podLogQuery : PodLogQuerySpec := { object := objStale, container := "c1" }

/-- Membership form of `List.contains` for GroupKind lists. -/
theorem gk_contains_iff (l : List GroupKind) (a : GroupKind) :
    l.contains a = true ↔ a ∈ l := by
  constructor
  · intro h
    simpa [List.contains] using h
  · intro h
    simpa [List.contains] using List.elem_iff.mpr h

/-- Filtering a list by membership in itself is the identity. -/
theorem filter_contains_self (l : List GroupKind) :
    l.filter (fun k => l.contains k) = l := by
  refine List.filter_eq_self.mpr (fun a ha => ?_)
  exact (gk_contains_iff l a).mpr ha

/-- Non-membership form of a false `List.contains`. -/
theorem gk_not_mem_of_contains_false {l : List GroupKind} {a : GroupKind}
    (h : l.contains a = false) : a ∉ l := by
  intro hm
  rw [(gk_contains_iff l a).mpr hm] at h
  exact Bool.true_eq_false.mp h

/-- Merge of two enumerate-in matchers concatenates the included lists and
empties the exclusions. -/
theorem merge_enum_enum (ainc aexc binc bexc : List GroupKind) :
    (GroupKindMatcher.mk false ainc aexc).Merge (GroupKindMatcher.mk false binc bexc) =
      GroupKindMatcher.mk false (ainc ++ binc) [] := by
  simp [GroupKindMatcher.Merge, intersect]

/-- Merge of an enumerate-in matcher with an includeAll matcher keeps the
includeAll side's exclusions. -/
theorem merge_enum_all (ainc aexc binc bexc : List GroupKind) :
    (GroupKindMatcher.mk false ainc aexc).Merge (GroupKindMatcher.mk true binc bexc) =
      GroupKindMatcher.mk true [] bexc := by
  simp [GroupKindMatcher.Merge, intersect]

/-- Merge of an includeAll matcher with an enumerate-in matcher keeps the
includeAll side's exclusions. -/
theorem merge_all_enum (ainc aexc binc bexc : List GroupKind) :
    (GroupKindMatcher.mk true ainc aexc).Merge (GroupKindMatcher.mk false binc bexc) =
      GroupKindMatcher.mk true [] aexc := by
  simp [GroupKindMatcher.Merge, intersect]

/-- Merge of two includeAll matchers intersects the exclusions. -/
theorem merge_all_all (ainc aexc binc bexc : List GroupKind) :
    (GroupKindMatcher.mk true ainc aexc).Merge (GroupKindMatcher.mk true binc bexc) =
      GroupKindMatcher.mk true [] (intersect2 aexc bexc) := by
  simp [GroupKindMatcher.Merge, intersect]

/-- C3 counterexample: with a = enumerate-in {Pod} and
b = include-all-minus {Pod}, a matches Pod but a.Merge(b) does not —
merging narrows the match at Pod, refuting the monotone-widening claim. -/
theorem c3_merge_not_monotone_counterexample :
    (GroupKindMatcher.mk false [gkPod] []).Match gkPod = true ∧
    ((GroupKindMatcher.mk false [gkPod] []).Merge
        (GroupKindMatcher.mk true [] [gkPod])).Match gkPod = false := by
  decide

/-- C3 amended: merging widens the match for every GroupKind that neither
side's ExcludedKinds lists: if a.Match(gk) holds and gk is excluded by
neither a nor b, then a.Merge(b).Match(gk) holds. -/
theorem c3_merge_widening_amended (a b : GroupKindMatcher) (gk : GroupKind)
    (ha : a.Match gk = true)
    (hae : a.ExcludedKinds.contains gk = false)
    (hbe : b.ExcludedKinds.contains gk = false) :
    (a.Merge b).Match gk = true := by
  obtain ⟨ia, ainc, aexc⟩ := a
  obtain ⟨ib, binc, bexc⟩ := b
  simp only at hae hbe
  cases ia <;> cases ib
  · -- neither side IncludeAll: union of the included lists
    rw [merge_enum_enum]
    by_cases h : ainc.length > 0
    · simp only [GroupKindMatcher.Match, h, if_true] at ha
      have hmem : gk ∈ ainc := (gk_contains_iff ainc gk).mp ha
      have hc : (ainc ++ binc).contains gk = true :=
        (gk_contains_iff _ gk).mpr (List.mem_append.mpr (Or.inl hmem))
      have hl : 0 < ainc.length := List.length_pos_of_mem hmem
      simp [GroupKindMatcher.Match, List.length_append]
      exact ⟨Or.inl hl, Or.inl hmem⟩
    · simp [GroupKindMatcher.Match, h] at ha
  · -- only b IncludeAll: merged exclusions are b's
    rw [merge_enum_all]
    by_cases hlen : bexc.length > 0
    · simp [GroupKindMatcher.Match, hlen]
      exact gk_not_mem_of_contains_false hbe
    · simp [GroupKindMatcher.Match, hlen]
  · -- only a IncludeAll: merged exclusions are a's
    rw [merge_all_enum]
    by_cases hlen : aexc.length > 0
    · simp [GroupKindMatcher.Match, hlen]
      exact gk_not_mem_of_contains_false hae
    · simp [GroupKindMatcher.Match, hlen]
  · -- both IncludeAll: merged exclusions are the intersection
    rw [merge_all_all]
    have hsub : (intersect2 aexc bexc).contains gk = false := by
      cases hc : (intersect2 aexc bexc).contains gk
      · rfl
      · exfalso
        have hmem := (gk_contains_iff _ gk).mp hc
        have h2 : gk ∈ bexc := List.mem_of_mem_filter hmem
        have h3 := (gk_contains_iff bexc gk).mpr h2
        rw [h3] at hbe
        exact Bool.true_eq_false.mp hbe
    by_cases hlen : (intersect2 aexc bexc).length > 0
    · simp [GroupKindMatcher.Match, hlen]
      exact gk_not_mem_of_contains_false hsub
    · simp [GroupKindMatcher.Match, hlen]

/-- C3 amended witness: concrete instance where the hypotheses hold and
merging preserves the match. -/
theorem c3_merge_widening_amended_witness :
    ((GroupKindMatcher.mk false [gkPod] []).Merge
        (GroupKindMatcher.mk true [] [gkSecret])).Match gkPod = true :=
  c3_merge_widening_amended
    (GroupKindMatcher.mk false [gkPod] [])
    (GroupKindMatcher.mk true [] [gkSecret]) gkPod
    (by decide) (by decide) (by decide)

/-- C4 counterexample: a matcher enumerating {Pod} is not idempotent under
Merge — the included list is duplicated and Equal reports a difference. -/
theorem c4_merge_self_not_idempotent_counterexample :
    ((GroupKindMatcher.mk false [gkPod] []).Merge
        (GroupKindMatcher.mk false [gkPod] [])).Equal
      (GroupKindMatcher.mk false [gkPod] []) = false := by
  decide

/-- C4 amended: m.Merge(m) equals m (per Equal) exactly when the included
list is empty and, unless the matcher is includeAll, the excluded list is
empty as well; for a non-empty included list, Merge duplicates it and
Equal fails, and a non-includeAll matcher loses its excluded list. -/
theorem c4_merge_self_idempotent_iff (m : GroupKindMatcher) :
    ((m.Merge m).Equal m = true) ↔
      (m.IncludedKinds = [] ∧ (m.IncludeAll = true ∨ m.ExcludedKinds = [])) := by
  obtain ⟨ia, inc, exc⟩ := m
  cases ia
  · -- not includeAll: Merge m m = ⟨false, inc ++ inc, []⟩
    simp only [GroupKindMatcher.Merge, GroupKindMatcher.Equal, intersect]
    cases inc with
    | nil =>
      cases exc with
      | nil => simp [intersect2]
      | cons x xs => simp [intersect2]
    | cons y ys =>
      have hlen : (((y :: ys) ++ y :: ys).length != (y :: ys).length) = true := by
        simp [List.length_append]
      simp [hlen]
  · -- includeAll: Merge m m = ⟨true, [], intersect2 exc exc⟩
    simp only [GroupKindMatcher.Merge, GroupKindMatcher.Equal, intersect]
    have hself : intersect2 exc exc = exc := filter_contains_self exc
    cases inc with
    | nil => simp [hself, intersect2]
    | cons y ys => simp [hself]

/-- C5 counterexample: with exactly one side includeAll (a = include-all
minus {Pod}, b = enumerate-in {Secret}), the merged matcher keeps a's
exclusion {Pod} — the merged exclusion set is not empty. -/
theorem c5_single_includeall_exclusions_counterexample :
    (GroupKindMatcher.mk true [] [gkPod]).IncludeAll = true ∧
    (GroupKindMatcher.mk false [gkSecret] []).IncludeAll = false ∧
    ((GroupKindMatcher.mk true [] [gkPod]).Merge
        (GroupKindMatcher.mk false [gkSecret] [])).ExcludedKinds = [gkPod] := by
  decide

/-- C5 amended: when exactly one side is includeAll, Merge returns an
includeAll matcher with an empty included list whose exclusions are
exactly the includeAll side's ExcludedKinds (the non-includeAll side
contributes none). -/
theorem c5_single_includeall_merge_amended (a b : GroupKindMatcher)
    (h1 : a.IncludeAll = true) (h2 : b.IncludeAll = false) :
    a.Merge b = { IncludeAll := true, IncludedKinds := [],
                  ExcludedKinds := a.ExcludedKinds } ∧
    b.Merge a = { IncludeAll := true, IncludedKinds := [],
                  ExcludedKinds := a.ExcludedKinds } := by
  obtain ⟨ia, ainc, aexc⟩ := a
  obtain ⟨ib, binc, bexc⟩ := b
  simp only at h1 h2
  subst h1; subst h2
  constructor <;> simp [GroupKindMatcher.Merge, intersect]

/-- Pointwise form of the aggregation step: the result component is the
binary maximum, the progressing component the disjunction. -/
theorem aggStep_eq (rp : Result × Bool) (st : Status) :
    aggStep rp st = (maxRes rp.1 st.Result, rp.2 || st.Progressing) := by
  cases h : st.Progressing <;> simp [aggStep, maxRes, h]

/-- Folding the aggregation step over a list equals the maximum of the
extracted results and the disjunction of the extracted progressing flags. -/
theorem aggFoldGen {α : Type} (f : α → Status) (l : List α) (r : Result) (p : Bool) :
    l.foldl (fun rp x => aggStep rp (f x)) (r, p) =
      ((l.map (fun x => (f x).Result)).foldl maxRes r,
       p || (l.map (fun x => (f x).Progressing)).any id) := by
  induction l generalizing r p with
  | nil => simp
  | cons x rest ih =>
    rw [List.foldl_cons, aggStep_eq]
    rw [ih]
    simp [Bool.or_assoc]

/-- C1 (confirmed): AggregateResult emits the maximum result over all
contributors (conditions first, then sub-statuses) starting from Unknown,
the disjunction of their progressing flags, and the result's string
rendering as message; with no contributors the result is Unknown and
progressing is false. -/
theorem c1_aggregate_result_max_or (obj : Object) (subs : List ObjectStatus)
    (conds : List ConditionStatus) :
    (AggregateResult obj subs conds =
      ObjectStatus.mk obj
        { Result := maxResultOver (conds.map (fun c => c.statusOf.Result) ++
              subs.map (fun s => s.status.Result)),
          Progressing := anyProgressing (conds.map (fun c => c.statusOf.Progressing) ++
              subs.map (fun s => s.status.Progressing)),
          Status := (maxResultOver (conds.map (fun c => c.statusOf.Result) ++
              subs.map (fun s => s.status.Result))).String,
          Err := none }
        subs conds) ∧
    (AggregateResult obj [] [] =
      ObjectStatus.mk obj
        { Result := .Unknown, Progressing := false,
          Status := Result.Unknown.String, Err := none }
        [] []) := by
  constructor
  · simp only [AggregateResult, maxResultOver, anyProgressing,
      aggFoldGen (fun c => ConditionStatus.statusOf c) conds,
      aggFoldGen (fun s => ObjectStatus.status s) subs,
      List.foldl_append, List.any_append, Bool.false_or]
  · rfl

/-- Case split showing the sequential match computation of the source
equals the last-override formulation of the claim. -/
theorem matchCond_eq_spec (a : GenericConditionAnalyzer) (ct : String) :
    a.matchCond ct = a.matchFromSpec ct := by
  simp only [GenericConditionAnalyzer.matchCond, GenericConditionAnalyzer.matchFromSpec]
  cases h1 : a.Conditions.any (fun t => t ct) <;>
    cases h2 : a.ReversedPolarityConditions.any (fun t => t ct) <;>
      cases h3 : a.ProgressingConditions.any (fun t => t ct) <;>
        cases h4 : a.WarningConditions.any (fun t => t ct) <;>
          cases h5 : a.UnknownConditions.any (fun t => t ct) <;>
            simp [h1, h2, h3, h4, h5]

/-- C2 (confirmed): GenericConditionAnalyzer.Analyze behaves exactly as
the claim describes — NoMatch when no set matches; otherwise, in the bad
state (True under reversed polarity, False under normal), the target
result and progressing flag obtained by checking the five sets in the
fixed order with later sets overriding the result; Unknown for an Unknown
condition status; Ok otherwise. -/
theorem c2_generic_condition_analyzer_decision (a : GenericConditionAnalyzer)
    (cond : Condition) :
    a.Analyze cond = a.AnalyzeFromSpec cond := by
  simp only [GenericConditionAnalyzer.Analyze, GenericConditionAnalyzer.AnalyzeFromSpec,
    matchCond_eq_spec]
  rcases h : a.matchFromSpec cond.condType with ⟨m1, m2, m3, m4⟩
  dsimp only
  split_ifs <;> simp_all

/-- Inner analyzer loop as a search for the first verdict different from
the NoMatch sentinel. -/
theorem runCondAnalyzers_eq_find (analyzers : List CondAnalyzer) (cond : Condition) :
    runCondAnalyzers analyzers cond =
      ((analyzers.map (fun a => a cond)).find?
          (fun v => v != ConditionStatusNoMatch)).getD ConditionStatusNoMatch := by
  induction analyzers with
  | nil => rfl
  | cons a rest ih =>
    simp only [runCondAnalyzers, List.map_cons, List.find?]
    by_cases h : a cond = ConditionStatusNoMatch
    · simp [h, ih]
    · have hb : (a cond != ConditionStatusNoMatch) = true := bne_iff_ne.mpr h
      simp [h, hb]

/-- C6 counterexample: an analyzer whose verdict differs from the NoMatch
sentinel but carries no condition pointer: AnalyzeConditions does not keep
that first non-NoMatch verdict — it replaces it with Unknown. -/
theorem c6_first_verdict_dropped_counterexample :
    headlessVerdictAnalyzer condReady ≠ ConditionStatusNoMatch ∧
    AnalyzeConditions [condReady] [headlessVerdictAnalyzer] =
      [ConditionStatusUnknown condReady] ∧
    AnalyzeConditions [condReady] [headlessVerdictAnalyzer] ≠
      [headlessVerdictAnalyzer condReady] := by
  decide

/-- C6 amended: AnalyzeConditions returns one ConditionStatus per input
condition, in input order; each condition gets the verdict of the first
analyzer that does not return the NoMatch sentinel provided that verdict
carries a condition pointer, and otherwise — no analyzer matched, or the
matching verdict has no condition pointer — result Unknown with
progressing false. -/
theorem c6_analyze_conditions_amended (conds : List Condition)
    (analyzers : List CondAnalyzer) :
    AnalyzeConditions conds analyzers =
      conds.map (fun cond =>
        match (analyzers.map (fun a => a cond)).find?
            (fun v => v != ConditionStatusNoMatch) with
        | some v => if v.Condition = none then ConditionStatusUnknown cond else v
        | none => ConditionStatusUnknown cond) := by
  simp only [AnalyzeConditions, runCondAnalyzers_eq_find]
  congr 1
  funext cond
  cases h : (analyzers.map (fun a => a cond)).find? (fun v => v != ConditionStatusNoMatch) with
  | none => simp [h, ConditionStatusNoMatch]
  | some v => simp [h]

/-- findAnalyzer leaves the UID-to-object cache untouched. -/
theorem findAnalyzer_cache (e : Evaluator) (obj : Object) :
    (e.findAnalyzer obj).2.cache = e.cache := by
  simp only [Evaluator.findAnalyzer]
  cases e.analyzers.find? (fun a => a.supports obj) <;> rfl

/-- findAnalyzer leaves the loader untouched. -/
theorem findAnalyzer_loader (e : Evaluator) (obj : Object) :
    (e.findAnalyzer obj).2.loader = e.loader := by
  simp only [Evaluator.findAnalyzer]
  cases e.analyzers.find? (fun a => a.supports obj) <;> rfl

/-- findAnalyzer returns the first analyzer in registration order that
supports the object. -/
theorem findAnalyzer_fst (e : Evaluator) (obj : Object) :
    (e.findAnalyzer obj).1 = e.analyzers.find? (fun a => a.supports obj) := by
  simp only [Evaluator.findAnalyzer]
  cases e.analyzers.find? (fun a => a.supports obj) <;> rfl

/-- On a cache miss, updateCache stores the object under its UID; the
namespace-bucket bookkeeping does not touch the UID cache. -/
theorem updateCacheB_cache (e : Evaluator) (obj : Object)
    (h : lookupKV e.cache obj.uid = none) :
    (e.updateCacheB obj).2.cache = setKV e.cache obj.uid obj := by
  simp only [Evaluator.updateCacheB, h, Evaluator.getNsCacheE]
  cases lookupKV ({ e with cache := setKV e.cache obj.uid obj } : Evaluator).nsCache obj.ns <;>
    rfl

/-- C7 counterexample: on a cache miss, Eval fetches the fresh object
version but inserts the stale argument into the cache — the cached entry
is not the fetched fresh version. -/
theorem c7_eval_caches_stale_argument_counterexample :
    objStale ≠ objFresh ∧
    freshLoader.get objStale = Except.ok objFresh ∧
    ((emptyEvaluator freshLoader).Eval objStale).2.cache = [(objStale.uid, objStale)] ∧
    lookupKV ((emptyEvaluator freshLoader).Eval objStale).2.cache objStale.uid ≠
      some objFresh := by
  refine ⟨by decide, rfl, by decide, by decide⟩

/-- C7 amended: Eval analyzes the cached object on a cache hit (cache
unchanged); on a miss it analyzes the fresh version returned by
Loader.Get but inserts the original argument object into the cache; and
when Loader.Get fails it returns UnknownStatusWithError with the cache
unchanged. -/
theorem c7_eval_amended (e : Evaluator) (obj : Object) :
    (∀ c, lookupKV e.cache obj.uid = some c →
      (e.Eval obj).1 = (e.analyzers.find? (fun a => a.supports obj)).map
          (fun a => a.analyze c) ∧
      (e.Eval obj).2.cache = e.cache) ∧
    (∀ fresh, lookupKV e.cache obj.uid = none → e.loader.get obj = .ok fresh →
      (e.Eval obj).1 = (e.analyzers.find? (fun a => a.supports obj)).map
          (fun a => a.analyze fresh) ∧
      (e.Eval obj).2.cache = setKV e.cache obj.uid obj) ∧
    (∀ err, lookupKV e.cache obj.uid = none → e.loader.get obj = .error err →
      (e.Eval obj).1 = some (UnknownStatusWithError obj err) ∧
      (e.Eval obj).2.cache = e.cache) := by
  have hc := findAnalyzer_cache e obj
  have hl := findAnalyzer_loader e obj
  have hf := findAnalyzer_fst e obj
  refine ⟨?_, ?_, ?_⟩
  · intro c hme
    simp only [Evaluator.Eval, hc, hme, hf]
    exact ⟨trivial, trivial⟩
  · intro fresh hme hget
    simp only [Evaluator.Eval, hc, hme, hl, hget, hf]
    refine ⟨trivial, ?_⟩
    rw [updateCacheB_cache _ obj (by rw [hc]; exact hme), hc]
  · intro err hme hget
    simp only [Evaluator.Eval, hc, hme, hl, hget]
    exact ⟨trivial, trivial⟩

/-- C7 amended witness: the three branches at concrete inputs — cache
hit, miss with successful Get, and failing Get. -/
theorem c7_eval_amended_witness :
    ((cachedEvaluator.Eval objStale).2.cache = cachedEvaluator.cache) ∧
    (((emptyEvaluator freshLoader).Eval objStale).2.cache =
      setKV (emptyEvaluator freshLoader).cache objStale.uid objStale) ∧
    (((emptyEvaluator failLoader).Eval objStale).1 =
      some (UnknownStatusWithError objStale "boom")) :=
  ⟨((c7_eval_amended cachedEvaluator objStale).1 objStale rfl).2,
   ((c7_eval_amended (emptyEvaluator freshLoader) objStale).2.1 objFresh rfl rfl).2,
   ((c7_eval_amended (emptyEvaluator failLoader) objStale).2.2 "boom" rfl rfl).1⟩

/-- C8 counterexample: with a loader whose bulk list always fails and an
empty cache, EvalQuery returns ok with an empty result — the listing
error does not bubble up even though no objects were returned. -/
theorem c8_listing_error_swallowed_counterexample :
    (emptyEvaluator failLoader).loader.load "ns1"
        { IncludeAll := false, IncludedKinds := [gkPod], ExcludedKinds := [] } [] =
      Except.error "boom" ∧
    ((emptyEvaluator failLoader).EvalQuery podKindQuery none).1 =
      Except.ok [] := by
  exact ⟨rfl, rfl⟩

/-- C8 amended: EvalQuery never returns an error: Load discards the error
of loadNamespace and always returns a nil error, so listing failures are
silently swallowed and the query is evaluated against whatever the cache
holds. -/
theorem c8_evalquery_never_errors_amended (e : Evaluator) (q : QuerySpec)
    (analyzer : Option Analyzer) :
    ∃ stats e2, e.EvalQuery q analyzer = (Except.ok stats, e2) :=
  ⟨_, _, rfl⟩

/-- C9 counterexample: after Reset of an evaluator with a memoized
analyzer and a pending ownership-refresh namespace, the analyzer cache
still holds its entry and the refresh list still has (zeroed) entries. -/
theorem c9_reset_keeps_state_counterexample :
    (populatedEvaluator.Reset).analyzersCache.length = 1 ∧
    (populatedEvaluator.Reset).ownershipRefreshNs = [""] :=
  ⟨rfl, rfl⟩

/-- C9 amended: Reset empties the UID cache, the namespace cache and the
ownership index; it zeroes the ownership refresh list in place keeping its
length, and leaves the per-UID analyzer cache (and the analyzers) alone. -/
theorem c9_reset_amended (e : Evaluator) :
    (e.Reset).cache = [] ∧ (e.Reset).nsCache = [] ∧ (e.Reset).ownership = [] ∧
    (e.Reset).ownershipRefreshNs = e.ownershipRefreshNs.map (fun _ => "") ∧
    (e.Reset).analyzersCache = e.analyzersCache ∧
    (e.Reset).analyzers = e.analyzers :=
  ⟨rfl, rfl, rfl, rfl, rfl, rfl⟩

/-- C10 (confirmed): PodLogQuerySpec.Eval always returns exactly one
synthetic object of kind Log, apiVersion kube-health.io/v1, named after
the container; it requests 5 tail lines, stores them under the log data
key on success and omits the key on failure — surfacing no error either
way. -/
theorem c10_podlog_eval (qs : PodLogQuerySpec) (e : Evaluator) :
    (qs.Eval e).length = 1 ∧
    (∀ o, o ∈ qs.Eval e → o.kind = "Log" ∧ o.apiVersion = "kube-health.io/v1" ∧
        o.name = qs.container) ∧
    (∀ logs, e.loader.loadPodLogs qs.object qs.container 5 = .ok logs →
      qs.Eval e = [{ apiVersion := "kube-health.io/v1", kind := "Log",
                     name := qs.container, ns := "", uid := "",
                     data := [("log", logs)] }]) ∧
    (∀ err, e.loader.loadPodLogs qs.object qs.container 5 = .error err →
      qs.Eval e = [{ apiVersion := "kube-health.io/v1", kind := "Log",
                     name := qs.container, ns := "", uid := "", data := [] }]) := by
  refine ⟨?_, ?_, ?_, ?_⟩
  · simp only [PodLogQuerySpec.Eval]
    cases e.loader.loadPodLogs qs.object qs.container 5 <;> rfl
  · intro o ho
    simp only [PodLogQuerySpec.Eval, List.mem_singleton] at ho
    subst ho
    exact ⟨rfl, rfl, rfl⟩
  · intro logs hok
    simp [PodLogQuerySpec.Eval, hok]
  · intro err herr
    simp [PodLogQuerySpec.Eval, herr]

/-- C10 witness: both loader branches at concrete inputs — logs present
and log fetch failing. -/
theorem c10_podlog_eval_witness :
    (podLogQuery.Eval (emptyEvaluator freshLoader) =
      [{ apiVersion := "kube-health.io/v1", kind := "Log", name := "c1",
         ns := "", uid := "", data := [("log", "L1")] }]) ∧
    (podLogQuery.Eval (emptyEvaluator failLoader) =
      [{ apiVersion := "kube-health.io/v1", kind := "Log", name := "c1",
         ns := "", uid := "", data := [] }]) :=
  ⟨(c10_podlog_eval podLogQuery (emptyEvaluator freshLoader)).2.2.1 "L1" rfl,
   (c10_podlog_eval podLogQuery (emptyEvaluator failLoader)).2.2.2 "boom" rfl⟩

/-- C5 amended witness: concrete one-sided includeAll merge keeping the
includeAll side's exclusions. -/
theorem c5_single_includeall_merge_amended_witness :
    (GroupKindMatcher.mk true [] [gkPod]).Merge
        (GroupKindMatcher.mk false [gkSecret] []) =
      { IncludeAll := true, IncludedKinds := [], ExcludedKinds := [gkPod] } ∧
    (GroupKindMatcher.mk false [gkSecret] []).Merge
        (GroupKindMatcher.mk true [] [gkPod]) =
      { IncludeAll := true, IncludedKinds := [], ExcludedKinds := [gkPod] } :=
  c5_single_includeall_merge_amended
    (GroupKindMatcher.mk true [] [gkPod])
    (GroupKindMatcher.mk false [gkSecret] []) rfl rfl

end KubeHealth
